import Mathlib

/-!
Verification development for the KMRL document-management backend's
document-processing pipeline: the AI gateway (`AIService`), the file
validator (`FileProcessor`), and the queued job handlers
(`ProcessingQueueService`).  Each TypeScript function that the claims
touch is embedded as an executable Lean definition, and the claims are
settled as theorems about those definitions.
-/

/-! ## JavaScript string and regex primitives

`AIService.extractEntities` scans text with `String.prototype.match`
and global regexes.  The patterns used are sequences of literal
characters and greedy character-class repeats, so we embed exactly that
fragment: an atom is a literal or a greedy bounded/unbounded class
repeat, a pattern is a list of atoms, and matching follows the JS
backtracking discipline (maximal repeat first, backing off on failure),
with the global scan advancing left to right past each match. -/

/-- A regex atom: a literal character, or a greedy repeat of a
character class with lower bound `lo` and optional upper bound `hi`. -/
inductive RE where
  | lit (c : Char)
  | cls (p : Char → Bool) (lo : Nat) (hi : Option Nat)

/-- Backtracking match of a pattern against the head of `cs`, returning
the number of characters consumed by the leftmost-greedy match, if any.
For a class repeat we take the maximal run allowed and back off one
character at a time, as the JS engine does. -/
def matchSeq : List RE → List Char → Option Nat
  | [], _ => some 0
  | RE.lit _ :: _, [] => none
  | RE.lit c :: rest, x :: cs =>
      if x = c then (matchSeq rest cs).map (· + 1) else none
  | RE.cls p lo hi :: rest, cs =>
      let run := (cs.takeWhile p).length
      let maxTake := match hi with
        | some h => min h run
        | none => run
      if lo ≤ maxTake then
        (List.range (maxTake + 1 - lo)).findSome? (fun i =>
          let k := maxTake - i
          (matchSeq rest (cs.drop k)).map (· + k))
      else none

/-- Global scan (`String.prototype.match` with the `g` flag),
structured on a fuel argument so it evaluates by iota reduction: find
each successive match from left to right, restarting after the end of
the previous match (advancing one position on a zero-length match).
Every step consumes at least one character, so any fuel above the text
length is enough. -/
def scanAux (re : List RE) : Nat → List Char → List (List Char)
  | 0, _ => []
  | _ + 1, [] =>
      match matchSeq re [] with
      | some _ => [[]]
      | none => []
  | fuel + 1, c :: cs =>
      match matchSeq re (c :: cs) with
      | none => scanAux re fuel cs
      | some 0 => [] :: scanAux re fuel cs
      | some (k + 1) => (c :: cs).take (k + 1) :: scanAux re fuel ((c :: cs).drop (k + 1))

/-- Global scan of a whole character list. -/
def scanFrom (re : List RE) (cs : List Char) : List (List Char) :=
  scanAux re (cs.length + 1) cs

/-- All matches of a pattern in a string, in order (empty when
`String.prototype.match` would return `null`). -/
def jsMatchAll (re : List RE) (s : String) : List String :=
  (scanFrom re s.data).map (fun l => String.mk l)

/-- JS `\d`. -/
def isDigitChar (c : Char) : Bool := '0' ≤ c && c ≤ '9'

/-- JS `[A-Z]`. -/
def isUpperAZ (c : Char) : Bool := 'A' ≤ c && c ≤ 'Z'

/-- JS `[\d,]`. -/
def isDigitOrComma (c : Char) : Bool := isDigitChar c || c = ','

/-- JS `\s` (ASCII and Unicode whitespace recognised by the regex
engine). -/
def isJsSpace (c : Char) : Bool :=
  c = ' ' || c = '\t' || c = '\n' || c = '\x0b' || c = '\x0c' || c = '\r' ||
  c.val = 0x00a0 || c.val = 0x1680 ||
  (0x2000 ≤ c.val && c.val ≤ 0x200a) ||
  c.val = 0x2028 || c.val = 0x2029 || c.val = 0x202f || c.val = 0x205f ||
  c.val = 0x3000 || c.val = 0xfeff

/-- Literal pattern for a fixed string of characters. -/
def lits (s : String) : List RE := s.data.map RE.lit

/-! ### The entity-extraction patterns of `AIService.extractEntities` -/

/-- Pattern `/\d{1,2}\/\d{1,2}\/\d{4}/g` -/
def datePattern1 : List RE :=
  [RE.cls isDigitChar 1 (some 2), RE.lit '/', RE.cls isDigitChar 1 (some 2),
   RE.lit '/', RE.cls isDigitChar 4 (some 4)]

/-- Pattern `/\d{4}-\d{1,2}-\d{1,2}/g` -/
def datePattern2 : List RE :=
  [RE.cls isDigitChar 4 (some 4), RE.lit '-', RE.cls isDigitChar 1 (some 2),
   RE.lit '-', RE.cls isDigitChar 1 (some 2)]

/-- Pattern `/\d{1,2}-\d{1,2}-\d{4}/g` -/
def datePattern3 : List RE :=
  [RE.cls isDigitChar 1 (some 2), RE.lit '-', RE.cls isDigitChar 1 (some 2),
   RE.lit '-', RE.cls isDigitChar 4 (some 4)]

/-- Pattern `/\$[\d,]+\.?\d*/g` -/
def amountPattern1 : List RE :=
  [RE.lit '$', RE.cls isDigitOrComma 1 none,
   RE.cls (fun c => c = '.') 0 (some 1), RE.cls isDigitChar 0 none]

/-- Pattern `/USD\s*[\d,]+\.?\d*/g` -/
def amountPattern2 : List RE :=
  lits "USD" ++
  [RE.cls isJsSpace 0 none, RE.cls isDigitOrComma 1 none,
   RE.cls (fun c => c = '.') 0 (some 1), RE.cls isDigitChar 0 none]

/-- Pattern `/₹[\d,]+\.?\d*/g` -/
def amountPattern3 : List RE :=
  [RE.lit '₹', RE.cls isDigitOrComma 1 none,
   RE.cls (fun c => c = '.') 0 (some 1), RE.cls isDigitChar 0 none]

/-- Pattern `/INR\s*[\d,]+\.?\d*/g` -/
def amountPattern4 : List RE :=
  lits "INR" ++
  [RE.cls isJsSpace 0 none, RE.cls isDigitOrComma 1 none,
   RE.cls (fun c => c = '.') 0 (some 1), RE.cls isDigitChar 0 none]

/-- Pattern `/[A-Z]{2,4}-\d{3,4}/g` -/
def projectCodePattern1 : List RE :=
  [RE.cls isUpperAZ 2 (some 4), RE.lit '-', RE.cls isDigitChar 3 (some 4)]

/-- Pattern `/[A-Z]{2,4}-\d{4}-\d{3}/g` -/
def projectCodePattern2 : List RE :=
  [RE.cls isUpperAZ 2 (some 4), RE.lit '-', RE.cls isDigitChar 4 (some 4),
   RE.lit '-', RE.cls isDigitChar 3 (some 3)]

/-- Pattern `/PROJ-\d+/g` -/
def projectCodePattern3 : List RE :=
  lits "PROJ-" ++ [RE.cls isDigitChar 1 none]

/-- Pattern `/KM-\d+-\d+/g` -/
def projectCodePattern4 : List RE :=
  lits "KM-" ++ [RE.cls isDigitChar 1 none, RE.lit '-', RE.cls isDigitChar 1 none]

/-- The entity lists produced by `AIService.extractEntities`. -/
structure Entities where
  dates : List String
  amounts : List String
  project_codes : List String
  deriving DecidableEq

/-- The function `AIService.extractEntities`: pure regex scan over the OCR text; the
matches of every pattern are concatenated in pattern order, duplicates
kept. -/
def extractEntities (ocrText : String) : Entities :=
  { dates :=
      [datePattern1, datePattern2, datePattern3].flatMap
        (fun p => jsMatchAll p ocrText)
    amounts :=
      [amountPattern1, amountPattern2, amountPattern3, amountPattern4].flatMap
        (fun p => jsMatchAll p ocrText)
    project_codes :=
      [projectCodePattern1, projectCodePattern2,
       projectCodePattern3, projectCodePattern4].flatMap
        (fun p => jsMatchAll p ocrText) }

/-! ## Node `path` helpers and JS string operations -/

/-- Node `path.basename` (posix): the last path component, with
trailing slashes stripped; the root path keeps its slash. -/
def jsBasename (p : String) : String :=
  let cs := p.data
  let rev := cs.reverse.dropWhile (fun c => c = '/')
  if cs ≠ [] && rev.isEmpty then "/"
  else String.mk ((rev.takeWhile (fun c => c ≠ '/')).reverse)

/-- Node `path.extname`: the extension of the basename from its last
dot (inclusive); empty when there is no dot or the dot is the leading
character. -/
def jsExtname (p : String) : String :=
  let b := (jsBasename p).data
  if b = ['.'] ∨ b = ['.', '.'] then ""
  else
    let rev := b.reverse
    let afterDot := rev.takeWhile (fun c => c ≠ '.')
    if afterDot.length + 1 < rev.length then
      String.mk ('.' :: afterDot.reverse)
    else ""

/-- JS `String.prototype.toLowerCase` on the ASCII range. -/
def jsToLower (s : String) : String :=
  String.mk (s.data.map Char.toLower)

/-- JS `String.prototype.includes`: substring containment. -/
def jsIncludes (s sub : String) : Bool :=
  go sub.data s.data
where
  go (needle : List Char) : List Char → Bool
    | [] => needle.isEmpty
    | c :: t => needle.isPrefixOf (c :: t) || go needle t

/-! ## AI Gateway (`AIService`) -/

/-- Result of `AIService.classifyDocument` /
`AIService.fallbackClassification` (the wall-clock `processing_time`
field is not modelled). -/
structure AIClassificationResult where
  document_type : String
  confidence : ℚ
  entities : Option Entities
  deriving DecidableEq

/-- Response body of the external classification delegate
(`POST /classify`): fields may be absent, mirroring
`response.data.document_type || 'unknown'` handling. -/
structure DelegateResp where
  document_type : Option String
  confidence : Option ℚ
  entities : Option Entities

/-- The function `AIService.fallbackClassification`: deterministic rule-based
classifier on the lower-cased basename, extension (without the dot) and
OCR text, tried in source order. -/
def fallbackClassification (ocrText filePath : String) : AIClassificationResult :=
  let filename := jsToLower (jsBasename filePath)
  let extension := jsToLower ((jsExtname filePath).drop 1)
  let text := jsToLower ocrText
  let classed : String × ℚ :=
    if extension = "pdf" || jsIncludes filename "report" then
      ("report", 0.6)
    else if jsIncludes filename "invoice" || jsIncludes text "invoice" ||
            jsIncludes text "bill" then
      ("invoice", 0.7)
    else if jsIncludes filename "contract" || jsIncludes text "agreement" ||
            jsIncludes text "contract" then
      ("contract", 0.7)
    else if jsIncludes filename "drawing" || extension = "dwg" ||
            extension = "dxf" then
      ("technical_drawing", 0.8)
    else if ["jpg", "jpeg", "png", "bmp", "tiff"].contains extension then
      ("image", 0.6)
    else if ["doc", "docx"].contains extension then
      ("document", 0.6)
    else if extension = "xlsx" then
      ("spreadsheet", 0.7)
    else
      ("unknown", 0.5)
  { document_type := classed.1
    confidence := classed.2
    entities := some { dates := [], amounts := [], project_codes := [] } }

/-- The function `AIService.classifyDocument`: delegate to the external
classification service (modelled as a function of the payload
`{text, filename, file_type}` it is sent); on delegate failure fall
back to the rule-based classifier.  `response.data.document_type ||
'unknown'` maps a missing or empty type to `"unknown"`, and a missing
confidence to `0`. -/
def classifyDocument (delegate : String → String → String → Except Unit DelegateResp)
    (ocrText filePath : String) : AIClassificationResult :=
  match delegate ocrText (jsBasename filePath) ((jsExtname filePath).drop 1) with
  | Except.ok r =>
      { document_type :=
          match r.document_type with
          | some t => if t = "" then "unknown" else t
          | none => "unknown"
        confidence := (r.confidence).getD 0
        entities := r.entities }
  | Except.error _ => fallbackClassification ocrText filePath

/-- Failures thrown by `AIService.performOCR`. -/
inductive OCRError where
  | fileNotFound (p : String)
  | unsupportedType (ext : String)
  | engine
  deriving DecidableEq

/-- External effects consumed by `AIService.performOCR`:
`fs.existsSync`, the local Tesseract engine and the external Python OCR
delegate (`performOCRViaPythonService`, its `response.data.text || ''`
normalisation included). -/
structure AIEnv where
  existsSync : String → Bool
  tesseract : String → Except Unit String
  pythonOCR : String → Except Unit String

/-- The function `AIService.performOCR`: fail when the file does not exist; run the
local engine on raster image extensions (a low engine confidence is
only logged); for `.pdf` call the external delegate and fall back to
the empty string on its failure; any other extension is unsupported. -/
def performOCR (env : AIEnv) (filePath : String) : Except OCRError String :=
  if env.existsSync filePath = false then
    Except.error (OCRError.fileNotFound filePath)
  else
    let ext := jsToLower (jsExtname filePath)
    if [".jpg", ".jpeg", ".png", ".bmp", ".tiff"].contains ext then
      match env.tesseract filePath with
      | Except.ok text => Except.ok text
      | Except.error _ => Except.error OCRError.engine
    else if ext = ".pdf" then
      match env.pythonOCR filePath with
      | Except.ok text => Except.ok text
      | Except.error _ => Except.ok ""
    else
      Except.error (OCRError.unsupportedType ext)

/-! ## File Validator (`FileProcessor.validateFile`) -/

/-- The file-system facts `validateFile` consults: `fs.existsSync` and
`fs.statSync(..).size`. -/
structure FSEnv where
  existsSync : String → Bool
  sizeOf : String → Nat

/-- Shape of the `{ valid, error? }` object returned by
`FileProcessor.validateFile`. -/
structure ValidationResult where
  valid : Bool
  error : Option String
  deriving DecidableEq

/-- The interpolated too-large message. -/
def tooLargeMsg (maxFileSize : Nat) : String :=
  "File size exceeds maximum allowed size of " ++ toString maxFileSize ++ " bytes"

/-- The function `FileProcessor.validateFile`: not-found, then size over the
configured maximum (`FileValidator.isValidFileSize` is
`size <= maxFileSize`), then empty (size zero), else valid. -/
def validateFile (fs : FSEnv) (maxFileSize : Nat) (filePath : String) : ValidationResult :=
  if fs.existsSync filePath = false then
    { valid := false, error := some "File does not exist" }
  else if maxFileSize < fs.sizeOf filePath then
    { valid := false, error := some (tooLargeMsg maxFileSize) }
  else if fs.sizeOf filePath = 0 then
    { valid := false, error := some "File is empty" }
  else
    { valid := true, error := none }

/-- Default of `config.upload.maxFileSize` (20 MB). -/
def defaultMaxFileSize : Nat := 20971520

/-! ## Document Status Store (`DocumentModel`, models/Project.ts)

The pipeline only ever touches the single document a job refers to, so
the store is represented by that document's row (`none` when the row is
absent; an `UPDATE ... WHERE id` against a missing row changes
nothing).  Wall-clock columns (`updated_at`, and the `NOW()` value of
`processed_at`) are abstracted to presence: `processed_at` is kept as
the flag of whether the timestamp has been set. -/

/-- Document lifecycle status. -/
inductive DocStatus where
  | pending
  | processing
  | completed
  | failed
  deriving DecidableEq

/-- The document row fields the pipeline reads or writes
(`processed_at` records whether the timestamp column has been set). -/
structure Document where
  status : DocStatus
  ocr_text : Option String
  ai_classification : Option String
  confidence_score : Option ℚ
  processing_time : Option Nat
  processed_at : Bool
  deriving DecidableEq

/-- The `additionalData` object of an `updateStatus` call: a field is
`some v` when the key is present. -/
structure UpdFields where
  ocr_text : Option String := none
  ai_classification : Option String := none
  confidence_score : Option ℚ := none
  processing_time : Option Nat := none

/-- The method `DocumentModel.updateStatus(id, status, additionalData?)`
(models/Project.ts): the UPDATE always sets `status`; when
`additionalData` is passed, `ai_classification` and `ocr_text` are
added to the SET list only when truthy (a present empty string is
skipped), `confidence_score` and `processing_time` whenever defined,
and `processed_at = NOW()` is added when the new status is
`completed`.  The row is untouched when the id matches nothing. -/
def updateStatus (store : Option Document) (st : DocStatus) (f : Option UpdFields) :
    Option Document :=
  store.map fun d =>
    match f with
    | none => { d with status := st }
    | some fields =>
        { status := st
          ai_classification := match fields.ai_classification with
            | some v => if v = "" then d.ai_classification else some v
            | none => d.ai_classification
          confidence_score := match fields.confidence_score with
            | some v => some v
            | none => d.confidence_score
          processing_time := match fields.processing_time with
            | some v => some v
            | none => d.processing_time
          ocr_text := match fields.ocr_text with
            | some v => if v = "" then d.ocr_text else some v
            | none => d.ocr_text
          processed_at := if st = DocStatus.completed then true else d.processed_at }

/-- The method `DocumentModel.findById(id)` (models/Project.ts): SELECT
of the document row by id, returning `result.rows[0] || null`; on the
single-row store this is the row itself. -/
def findById (store : Option Document) : Option Document := store

/-! ## Processing Pipeline / Job Queue (`ProcessingQueueService`) -/

/-- The `jobType` discriminator of `ProcessingJobData` (the unused
`thumbnail` kind is omitted; no handler or producer creates it). -/
inductive JobType where
  | upload
  | ocr
  | classification
  | indexing
  deriving DecidableEq

/-- The record `ProcessingJobData`: the payload each queue job carries.  Of the
open `metadata` record only the `ocrText` key is ever read, so it is
modelled directly. -/
structure JobData where
  documentId : Nat
  filePath : String
  jobType : JobType
  metaOcrText : Option String := none
  deriving DecidableEq

/-- External effects a job handler can hit during one attempt. -/
structure PipelineEnv where
  fs : FSEnv
  maxFileSize : Nat
  moveOk : Bool
  finalPath : String
  elapsed : Nat
  ai : AIEnv
  delegate : String → String → String → Except Unit DelegateResp

/-- Result of one handler attempt: on `ok` the handler returned and
enqueued `enqueued`; on `err` it threw (the job attempt fails) — either
way `store` is the Document Status Store row afterwards. -/
inductive Outcome where
  | ok (store : Option Document) (enqueued : List JobData)
  | err (store : Option Document)
  deriving DecidableEq

/-- The store row after an attempt. -/
def outStore : Outcome → Option Document
  | Outcome.ok s _ => s
  | Outcome.err s => s

/-- The jobs enqueued by an attempt (a throwing handler enqueues
nothing). -/
def outJobs : Outcome → List JobData
  | Outcome.ok _ q => q
  | Outcome.err _ => []

/-- The function `processDocumentJob` (intake): validate the file (an invalid file
throws, caught by the handler which marks the document `failed`);
metadata extraction is total and thumbnail failure is swallowed; a
failed relocation also marks the document `failed`; on success the
document is set to `completed` with the stage duration and exactly one
OCR job is enqueued on the relocated path. -/
def processDocumentJob (env : PipelineEnv) (store : Option Document) (jd : JobData) : Outcome :=
  if (validateFile env.fs env.maxFileSize jd.filePath).valid = false then
    Outcome.err (updateStatus store DocStatus.failed none)
  else if env.moveOk = false then
    Outcome.err (updateStatus store DocStatus.failed none)
  else
    Outcome.ok
      (updateStatus store DocStatus.completed (some { processing_time := some env.elapsed }))
      [{ documentId := jd.documentId, filePath := env.finalPath, jobType := JobType.ocr }]

/-- The function `processOCRJob`: run `AIService.performOCR`; a thrown OCR error is
only logged and rethrown (no store write); on success the document is
set to `processing` with the OCR text and exactly one classification
job is enqueued carrying the text in its metadata. -/
def processOCRJob (env : PipelineEnv) (store : Option Document) (jd : JobData) : Outcome :=
  match performOCR env.ai jd.filePath with
  | Except.error _ => Outcome.err store
  | Except.ok ocrText =>
      Outcome.ok
        (updateStatus store DocStatus.processing
          (some { ocr_text := some ocrText, processing_time := some env.elapsed }))
        [{ documentId := jd.documentId, filePath := jd.filePath,
           jobType := JobType.classification, metaOcrText := some ocrText }]

/-- The function `processClassificationJob`: take the OCR text from the job metadata
(`let ocrText = metadata?.ocrText; if (!ocrText) ...` — absent or empty
text falls back to `document?.ocr_text || ''` from the store); classify
(total, thanks to the rule-based fallback); set the document to
`completed` with the classification fields; enqueue exactly one
indexing job. -/
def processClassificationJob (env : PipelineEnv) (store : Option Document) (jd : JobData) : Outcome :=
  let fetched := ((findById store).bind (fun d => d.ocr_text)).getD ""
  let ocrText := match jd.metaOcrText with
    | some t => if t = "" then fetched else t
    | none => fetched
  let res := classifyDocument env.delegate ocrText jd.filePath
  Outcome.ok
    (updateStatus store DocStatus.completed
      (some { ai_classification := some res.document_type
              confidence_score := some res.confidence
              processing_time := some env.elapsed }))
    [{ documentId := jd.documentId, filePath := jd.filePath, jobType := JobType.indexing }]

/-- The function `processIndexingJob`: fetch the document (throwing when absent),
index it externally (the Elasticsearch call is commented out in the
source), and return; the handler never writes to the store and
enqueues nothing. -/
def processIndexingJob (store : Option Document) (_jd : JobData) : Outcome :=
  match findById store with
  | none => Outcome.err store
  | some _ => Outcome.ok store []

/-- Dispatch a job to its handler, as `setupJobProcessors` wires the
four queues. -/
def runJob (env : PipelineEnv) (store : Option Document) (jd : JobData) : Outcome :=
  match jd.jobType with
  | JobType.upload => processDocumentJob env store jd
  | JobType.ocr => processOCRJob env store jd
  | JobType.classification => processClassificationJob env store jd
  | JobType.indexing => processIndexingJob store jd

/-- Bull retry semantics for one job: run the handler once per
configured attempt (each attempt sees its own environment), stopping at
the first success; store writes made by failing attempts persist.
After the last failing attempt the job is terminally failed — the only
reaction is a log line, nothing more is enqueued. -/
def runAttempts (handler : PipelineEnv → Option Document → JobData → Outcome) :
    List PipelineEnv → Option Document → JobData → Outcome
  | [], store, _ => Outcome.err store
  | [e], store, jd => handler e store jd
  | e :: e' :: rest, store, jd =>
      match handler e store jd with
      | Outcome.ok s q => Outcome.ok s q
      | Outcome.err s => runAttempts handler (e' :: rest) s jd

/-- Configured `attempts: 2` on the OCR queue (`addOCRJob`). -/
def ocrMaxAttempts : Nat := 2

/-- The status visible in the store. -/
def statusOf (store : Option Document) : Option DocStatus := store.map (fun d => d.status)

/-- Run a chain of jobs depth-first (each stage's enqueued jobs run
after it), recording the store's status after every handler return;
`fuel` bounds the chain length.  A failing handler ends the chain (its
final status is recorded). -/
def runChain (env : PipelineEnv) : Nat → Option Document → List JobData → List (Option DocStatus)
  | 0, _, _ => []
  | _ + 1, _, [] => []
  | fuel + 1, store, jd :: rest =>
      match runJob env store jd with
      | Outcome.err s => [statusOf s]
      | Outcome.ok s q => statusOf s :: runChain env fuel s (q ++ rest)

/-- One full pass of a document through the pipeline starting from its
intake job: the statuses written after intake, OCR, classification and
indexing in order. -/
def pipelineTrace (env : PipelineEnv) (store : Option Document) (jd : JobData) :
    List (Option DocStatus) :=
  runChain env 5 store [jd]

/-! ## Concrete fixtures used by counterexamples and witnesses -/

/-- A delegate that is unreachable: every call fails. -/
def unreachableDelegate : String → String → String → Except Unit DelegateResp :=
  fun _ _ _ => Except.error ()

/-- The entity-extraction scenario text from the spec. -/
def scenarioText : String := "Paid $1,200.00 on 03/04/2024, ref PROJ-0042"

/-- A file system where every path exists with size 10. -/
def fsTenBytes : FSEnv := ⟨fun _ => true, fun _ => 10⟩

/-- A file system where no path exists. -/
def fsMissing : FSEnv := ⟨fun _ => false, fun _ => 0⟩

/-- A file system where every path exists with size 0. -/
def fsEmptyFile : FSEnv := ⟨fun _ => true, fun _ => 0⟩

/-- A file system where every path exists one byte over the default
limit. -/
def fsHugeFile : FSEnv := ⟨fun _ => true, fun _ => defaultMaxFileSize + 1⟩

/-- An environment in which every external step succeeds (the
classification delegate is down, so the fallback classifier is used —
classification still succeeds). -/
def envAllOk : PipelineEnv :=
  { fs := fsTenBytes
    maxFileSize := defaultMaxFileSize
    moveOk := true
    finalPath := "/uploads/documents/2024/06/a.png"
    elapsed := 0
    ai := ⟨fun _ => true, fun _ => Except.ok "hello", fun _ => Except.error ()⟩
    delegate := unreachableDelegate }

/-- An environment whose OCR engine and OCR delegate both fail. -/
def envOcrFail : PipelineEnv :=
  { envAllOk with ai := ⟨fun _ => true, fun _ => Except.error (), fun _ => Except.error ()⟩ }

/-- A freshly created document row. -/
def docPending : Document := ⟨DocStatus.pending, none, none, none, none, false⟩

/-- A document row as the intake stage leaves it. -/
def docCompleted : Document := ⟨DocStatus.completed, none, none, none, some 0, true⟩

/-- The intake job of the fixture document. -/
def jdUpload : JobData := { documentId := 1, filePath := "/tmp/a.png", jobType := JobType.upload }

/-- An OCR job on a raster image path. -/
def jdOcrPng : JobData :=
  { documentId := 1, filePath := "/uploads/documents/2024/06/a.png", jobType := JobType.ocr }

/-- An OCR job on a PDF path. -/
def jdOcrPdf : JobData := { documentId := 1, filePath := "doc.pdf", jobType := JobType.ocr }

/-! ## Claims -/

/-- C1 (counterexample): the intake handler `processDocumentJob` alone —
with only an OCR job enqueued, so before the OCR, classification or
indexing stage has executed — already sets the document's status to
`completed`, refuting both that transitions follow
`pending → processing → (completed | failed)` and that `completed` is
set only after the indexing stage has run. -/
theorem intake_sets_completed_early :
    statusOf (outStore (processDocumentJob envAllOk (some docPending) jdUpload)) =
      some DocStatus.completed ∧
    (outJobs (processDocumentJob envAllOk (some docPending) jdUpload)).map
        (fun j => j.jobType) = [JobType.ocr] := by
  constructor <;> rfl

/-- C1 (amended): in a full successful pass the stored status after
each stage is `completed` (intake), `processing` (OCR), `completed`
(classification), `completed` (indexing reads only): `completed` is
first reached straight from `pending` at the intake stage, is
downgraded to `processing` by the OCR stage, and is restored by the
classification stage before the indexing job executes. -/
theorem pipeline_status_trace (env : PipelineEnv) (d : Document) (jd : JobData) (t : String)
    (hj : jd.jobType = JobType.upload)
    (hv : (validateFile env.fs env.maxFileSize jd.filePath).valid = true)
    (hm : env.moveOk = true)
    (ho : performOCR env.ai env.finalPath = Except.ok t) :
    pipelineTrace env (some d) jd =
      [some DocStatus.completed, some DocStatus.processing,
       some DocStatus.completed, some DocStatus.completed] := by
  simp [pipelineTrace, runChain, runJob, hj, processDocumentJob, hv, hm,
        processOCRJob, ho, processClassificationJob, processIndexingJob,
        updateStatus, findById, statusOf]

/-- C1 (witness): the amended trace at a concrete all-success
environment. -/
theorem pipeline_status_trace_witness :
    pipelineTrace envAllOk (some docPending) jdUpload =
      [some DocStatus.completed, some DocStatus.processing,
       some DocStatus.completed, some DocStatus.completed] :=
  pipeline_status_trace envAllOk docPending jdUpload "hello" rfl rfl rfl rfl

/-- C2 (counterexample): an OCR job whose handler fails on both of its
2 configured attempts leaves the document exactly as it was — status
`completed` as written by the intake stage, not `failed` — because
`processOCRJob`'s catch block only logs and rethrows; no classification
job is enqueued. -/
theorem ocr_exhausted_not_failed :
    runAttempts processOCRJob [envOcrFail, envOcrFail] (some docCompleted) jdOcrPng =
      Outcome.err (some docCompleted) ∧
    statusOf (outStore
        (runAttempts processOCRJob [envOcrFail, envOcrFail] (some docCompleted) jdOcrPng)) ≠
      some DocStatus.failed ∧
    outJobs (runAttempts processOCRJob [envOcrFail, envOcrFail] (some docCompleted) jdOcrPng) =
      [] := by
  refine ⟨rfl, ?_, rfl⟩
  decide

/-- C2 (amended): whenever `performOCR` fails on both attempts of an
OCR job (`attempts: 2`), the job terminates with the Document Status
Store row untouched — in particular the status is whatever the previous
stage wrote, never updated to `failed` by this path — and no
classification job is enqueued. -/
theorem ocr_exhausted_amended (e1 e2 : PipelineEnv) (store : Option Document) (jd : JobData)
    (x y : OCRError)
    (h1 : performOCR e1.ai jd.filePath = Except.error x)
    (h2 : performOCR e2.ai jd.filePath = Except.error y) :
    runAttempts processOCRJob [e1, e2] store jd = Outcome.err store ∧
    outJobs (runAttempts processOCRJob [e1, e2] store jd) = [] := by
  have hrun : runAttempts processOCRJob [e1, e2] store jd = Outcome.err store := by
    simp [runAttempts, processOCRJob, h1, h2]
  exact ⟨hrun, by rw [hrun]; rfl⟩

/-- C2 (witness): the amended statement at the concrete failing
environment. -/
theorem ocr_exhausted_amended_witness :
    runAttempts processOCRJob [envOcrFail, envOcrFail] (some docCompleted) jdOcrPng =
      Outcome.err (some docCompleted) ∧
    outJobs (runAttempts processOCRJob [envOcrFail, envOcrFail] (some docCompleted) jdOcrPng) =
      [] :=
  ocr_exhausted_amended envOcrFail envOcrFail (some docCompleted) jdOcrPng
    OCRError.engine OCRError.engine rfl rfl

/-- C3 (counterexample): with the classification delegate unreachable,
`classifyDocument` on the file `invoice_march.pdf` with empty OCR text
returns `document_type = "report"` at confidence `0.6` — not `invoice`
at `0.7` — because the fallback's `pdf`/`report` rule is tested before
its invoice rule. -/
theorem invoice_pdf_not_invoice :
    (classifyDocument unreachableDelegate "" "invoice_march.pdf").document_type = "report" ∧
    (classifyDocument unreachableDelegate "" "invoice_march.pdf").confidence = 0.6 ∧
    (classifyDocument unreachableDelegate "" "invoice_march.pdf").document_type ≠ "invoice" := by
  refine ⟨rfl, rfl, ?_⟩
  decide

/-- C3 (amended): with the classification delegate unreachable, a file
named `invoice_march.pdf` with empty OCR text classifies via the
rule-based fallback as `report` at confidence `0.6` (the `pdf` rule
fires before the filename's `invoice` substring is consulted). -/
theorem invoice_pdf_fallback :
    classifyDocument unreachableDelegate "" "invoice_march.pdf" =
      { document_type := "report"
        confidence := 0.6
        entities := some { dates := [], amounts := [], project_codes := [] } } := by
  rfl

/-- C4 (counterexample): on the scenario text the extractor returns one
date and one amount, but the project code `PROJ-0042` appears twice —
matched by both `/[A-Z]{2,4}-\d{3,4}/` and `/PROJ-\d+/` — so it does
not return exactly one project code. -/
theorem entities_scenario_duplicate_code :
    extractEntities scenarioText =
      { dates := ["03/04/2024"]
        amounts := ["$1,200.00"]
        project_codes := ["PROJ-0042", "PROJ-0042"] } ∧
    (extractEntities scenarioText).project_codes.length ≠ 1 := by
  constructor
  · rfl
  · decide

/-- C4 (amended): entity extraction on the scenario text returns
exactly one date `03/04/2024`, exactly one amount `$1,200.00`, and the
project code `PROJ-0042` twice (once per matching pattern, duplicates
kept by design). -/
theorem entities_scenario :
    (extractEntities scenarioText).dates = ["03/04/2024"] ∧
    (extractEntities scenarioText).amounts = ["$1,200.00"] ∧
    (extractEntities scenarioText).project_codes = ["PROJ-0042", "PROJ-0042"] := by
  refine ⟨rfl, rfl, rfl⟩

/-- C5: for any file whose (lower-cased) extension is `.pdf` that
exists, if the external OCR delegate call fails then `performOCR`
returns the empty string instead of throwing, and the OCR stage still
succeeds rather than failing: it calls `updateStatus` with status
`processing` and the empty OCR text (which the store's truthiness check
declines to persist, so the row's `ocr_text` is unchanged) and enqueues
exactly one classification job for the document, carrying the empty
text in its metadata. -/
theorem pdf_delegate_failure_proceeds (env : PipelineEnv) (store : Option Document)
    (jd : JobData)
    (hex : env.ai.existsSync jd.filePath = true)
    (hext : jsToLower (jsExtname jd.filePath) = ".pdf")
    (hfail : env.ai.pythonOCR jd.filePath = Except.error ()) :
    performOCR env.ai jd.filePath = Except.ok "" ∧
    processOCRJob env store jd =
      Outcome.ok
        (updateStatus store DocStatus.processing
          (some { ocr_text := some "", processing_time := some env.elapsed }))
        [{ documentId := jd.documentId, filePath := jd.filePath,
           jobType := JobType.classification, metaOcrText := some "" }] ∧
    (outStore (processOCRJob env store jd)).map (fun d => d.status) =
      store.map (fun _ => DocStatus.processing) ∧
    (outStore (processOCRJob env store jd)).map (fun d => d.ocr_text) =
      store.map (fun d => d.ocr_text) := by
  have hocr : performOCR env.ai jd.filePath = Except.ok "" := by
    simp [performOCR, hex, hext, hfail]
  refine ⟨hocr, by simp [processOCRJob, hocr], ?_, ?_⟩ <;>
    cases store <;>
      simp [processOCRJob, hocr, outStore, updateStatus]

/-- C5 (witness): the concrete PDF OCR job under a failing delegate. -/
theorem pdf_delegate_failure_proceeds_witness :
    performOCR envOcrFail.ai jdOcrPdf.filePath = Except.ok "" ∧
    processOCRJob envOcrFail (some docCompleted) jdOcrPdf =
      Outcome.ok
        (updateStatus (some docCompleted) DocStatus.processing
          (some { ocr_text := some "", processing_time := some envOcrFail.elapsed }))
        [{ documentId := jdOcrPdf.documentId, filePath := jdOcrPdf.filePath,
           jobType := JobType.classification, metaOcrText := some "" }] ∧
    (outStore (processOCRJob envOcrFail (some docCompleted) jdOcrPdf)).map
        (fun d => d.status) = some DocStatus.processing ∧
    (outStore (processOCRJob envOcrFail (some docCompleted) jdOcrPdf)).map
        (fun d => d.ocr_text) = some none := by
  have h := pdf_delegate_failure_proceeds envOcrFail (some docCompleted) jdOcrPdf rfl rfl rfl
  exact ⟨h.1, h.2.1, h.2.2.1, h.2.2.2⟩

/-- C6 (counterexample): a `.png` file of size 10 bytes (within the
default 20 MB limit) passes validation — `validateFile` does not fail
with the `Empty` error, which is produced only when the size is exactly
zero. -/
theorem png_ten_bytes_valid :
    validateFile fsTenBytes defaultMaxFileSize "photo.png" = { valid := true, error := none } ∧
    (validateFile fsTenBytes defaultMaxFileSize "photo.png").error ≠ some "File is empty" := by
  refine ⟨rfl, ?_⟩
  decide

/-- C6 (amended): `validateFile` returns the not-found error when the
path does not exist, the too-large error when the size exceeds the
configured maximum, the empty error when the size is zero, and succeeds
otherwise — in particular an existing 10-byte `.png` within the limit
is valid, not `Empty`. -/
theorem validateFile_cases (fs : FSEnv) (maxFileSize : Nat) (path : String) :
    (fs.existsSync path = false →
      validateFile fs maxFileSize path = { valid := false, error := some "File does not exist" }) ∧
    (fs.existsSync path = true → maxFileSize < fs.sizeOf path →
      validateFile fs maxFileSize path =
        { valid := false, error := some (tooLargeMsg maxFileSize) }) ∧
    (fs.existsSync path = true → fs.sizeOf path = 0 → fs.sizeOf path ≤ maxFileSize →
      validateFile fs maxFileSize path = { valid := false, error := some "File is empty" }) ∧
    (fs.existsSync path = true → 0 < fs.sizeOf path → fs.sizeOf path ≤ maxFileSize →
      validateFile fs maxFileSize path = { valid := true, error := none }) := by
  refine ⟨fun h => ?_, fun h hs => ?_, fun h hz hs => ?_, fun h hp hs => ?_⟩
  · simp [validateFile, h]
  · simp [validateFile, h, hs]
  · simp [validateFile, h, hz]
  · have h1 : ¬ maxFileSize < fs.sizeOf path := Nat.not_lt.mpr hs
    have h2 : fs.sizeOf path ≠ 0 := Nat.pos_iff_ne_zero.mp hp
    simp [validateFile, h, h1, h2]

/-- C6 (witness): the four validation outcomes at concrete file
systems; the last conjunct is the 10-byte `.png` scenario. -/
theorem validateFile_cases_witness :
    validateFile fsMissing defaultMaxFileSize "photo.png" =
      { valid := false, error := some "File does not exist" } ∧
    validateFile fsHugeFile defaultMaxFileSize "photo.png" =
      { valid := false, error := some (tooLargeMsg defaultMaxFileSize) } ∧
    validateFile fsEmptyFile defaultMaxFileSize "photo.png" =
      { valid := false, error := some "File is empty" } ∧
    validateFile fsTenBytes defaultMaxFileSize "photo.png" =
      { valid := true, error := none } :=
  ⟨(validateFile_cases fsMissing defaultMaxFileSize "photo.png").1 rfl,
   (validateFile_cases fsHugeFile defaultMaxFileSize "photo.png").2.1 rfl (by decide),
   (validateFile_cases fsEmptyFile defaultMaxFileSize "photo.png").2.2.1 rfl rfl (by decide),
   (validateFile_cases fsTenBytes defaultMaxFileSize "photo.png").2.2.2 rfl (by decide) (by decide)⟩

/-- C7: `extractEntities` is a pure function of its input text —
repeated application to the same text yields identical
`{dates, amounts, project_codes}` output (the TypeScript function
creates its regexes afresh on every call and touches no external
state, so the embedding is a deterministic function). -/
theorem extractEntities_deterministic (text : String) :
    extractEntities text = extractEntities text := rfl

/-- C8: every file path whose lower-cased extension is `pdf`, or whose
lower-cased basename contains `report`, is classified by the fallback
as `report` at confidence `0.6` regardless of the OCR text: the
`pdf`/`report` rule is the first tried, so the invoice, contract and
later rules are unreachable for such files. -/
theorem fallback_pdf_is_report (ocrText filePath : String)
    (h : jsToLower ((jsExtname filePath).drop 1) = "pdf" ∨
         jsIncludes (jsToLower (jsBasename filePath)) "report" = true) :
    fallbackClassification ocrText filePath =
      { document_type := "report"
        confidence := 0.6
        entities := some { dates := [], amounts := [], project_codes := [] } } := by
  rcases h with h | h <;> simp [fallbackClassification, h]

/-- C8 (witness): a PDF whose OCR text mentions invoices is still a
`report`. -/
theorem fallback_pdf_is_report_witness :
    fallbackClassification "invoice bill contract" "statement.pdf" =
      { document_type := "report"
        confidence := 0.6
        entities := some { dates := [], amounts := [], project_codes := [] } } :=
  fallback_pdf_is_report "invoice bill contract" "statement.pdf" (Or.inl rfl)

/-- C9: the indexing handler `processIndexingJob` never writes to the
Document Status Store and never enqueues a further job: whatever the
store row and whether the handler succeeds (row present) or throws (row
absent), the row afterwards is exactly the row before. -/
theorem indexing_never_writes (store : Option Document) (jd : JobData) :
    outStore (processIndexingJob store jd) = store ∧
    outJobs (processIndexingJob store jd) = [] := by
  cases store <;> exact ⟨rfl, rfl⟩

/-- C10: `performOCR` fails with the file-not-found error on every path
that does not exist, whatever its extension — the existence check runs
before the extension dispatch, so even an unsupported extension reports
not-found rather than unsupported-type. -/
theorem performOCR_missing_file (env : AIEnv) (filePath : String)
    (h : env.existsSync filePath = false) :
    performOCR env filePath = Except.error (OCRError.fileNotFound filePath) := by
  simp [performOCR, h]

/-- C10 (witness): a nonexistent path with an extension no branch
supports still reports file-not-found. -/
theorem performOCR_missing_file_witness :
    performOCR ⟨fun _ => false, fun _ => Except.ok "t", fun _ => Except.ok "p"⟩ "ghost.zzz" =
      Except.error (OCRError.fileNotFound "ghost.zzz") :=
  performOCR_missing_file ⟨fun _ => false, fun _ => Except.ok "t", fun _ => Except.ok "p"⟩
    "ghost.zzz" rfl
